import Mathlib

/-!
Shallow embedding of the IAPWS-08 seawater model (`iapws08.py`, class
`SeaWater`).  Python floats are modelled as real numbers; the two coefficient
tables are kept as lists of tuples with exact rational coefficients, coerced
to the reals at evaluation time.  The summation loops of `_waterSupp` and
`_saline` become folds of a per-entry step function over the table; the final
unit normalisation is a separate stage, exactly as in the source.  The
external pure-water equation of state (module `iapws95`, not part of the
sources) is treated as an abstract collaborator, a parameter of every
definition that needs it.
-/

noncomputable section

namespace IAPWS08

/-- Universal gas constant `Rm = 8.314472` from the constants block. -/
def Rm : ℝ := 8.314472

/-- Normal salinity constant `Sn = 0.03516504`. -/
def Sn : ℝ := 0.03516504

/-- Reference salinity `S_ = Sn*40/35`, as in the constants block and as
recomputed locally inside `_saline`. -/
def S_ : ℝ := Sn * 40 / 35

/-- Molar-mass constant `Ms = 31.4038218`. -/
def Ms : ℝ := 31.4038218

/-- Modelled from the spec: the external pure-water equation of state
(module `iapws95`, class `IAPWS95`, absent from the sources) is a black box
that, given temperature and pressure, returns enthalpy `h`, entropy `s`,
density `rho`, isobaric heat capacity `cp`, the isentropic
temperature-pressure coefficient `betas` and the sound speed `w`.  Its output
record is this structure; the evaluator itself is an explicit function
parameter `eos : ℝ → ℝ → WaterEOSProps` below. -/
structure WaterEOSProps where
  h : ℝ
  s : ℝ
  rho : ℝ
  cp : ℝ
  betas : ℝ
  w : ℝ

/-- The eight-key Gibbs derivative set, the dictionary returned by `_water`,
`_waterSupp` and `_saline`. -/
structure GibbsProps where
  g : ℝ
  gt : ℝ
  gp : ℝ
  gtt : ℝ
  gtp : ℝ
  gpp : ℝ
  gs : ℝ
  gsp : ℝ

/-- The all-zero Gibbs derivative set. -/
def GibbsProps.zero : GibbsProps := ⟨0, 0, 0, 0, 0, 0, 0, 0⟩

/-- Key-wise sum of two Gibbs derivative sets, the loop
`prop[key] = pw[key] + ps[key]` of `calculo`. -/
def addGibbs (a b : GibbsProps) : GibbsProps :=
  ⟨a.g + b.g, a.gt + b.gt, a.gp + b.gp, a.gtt + b.gtt,
   a.gtp + b.gtp, a.gpp + b.gpp, a.gs + b.gs, a.gsp + b.gsp⟩

/-- Raw accumulators of the `_waterSupp` summation loop
(`g, gt, gp, gtt, gtp, gpp`), before normalisation. -/
structure Acc6 where
  g : ℝ
  gt : ℝ
  gp : ℝ
  gtt : ℝ
  gtp : ℝ
  gpp : ℝ

/-- Initial value of the `_waterSupp` accumulators. -/
def Acc6.zero : Acc6 := ⟨0, 0, 0, 0, 0, 0⟩

/-- Raw accumulators of the `_saline` summation loop, before
normalisation. -/
structure Acc8 where
  g : ℝ
  gt : ℝ
  gp : ℝ
  gtt : ℝ
  gtp : ℝ
  gpp : ℝ
  gs : ℝ
  gsp : ℝ

/-- Initial value of the `_saline` accumulators. -/
def Acc8.zero : Acc8 := ⟨0, 0, 0, 0, 0, 0, 0, 0⟩

/-- The 41-entry `(j, k, coefficient)` table of `_waterSupp` (lists `J`, `K`,
`G`, zipped in order). -/
def waterSuppTable : List (Nat × Nat × ℚ) :=
  [(0, 0, 0.101342743139674e3),
   (0, 1, 0.100015695367145e6),
   (0, 2, -0.254457654203630e4),
   (0, 3, 0.284517778446287e3),
   (0, 4, -0.333146754253611e2),
   (0, 5, 0.420263108803084e1),
   (0, 6, -0.546428511471039),
   (1, 0, 0.590578347909402e1),
   (1, 1, -0.270983805184062e3),
   (1, 2, 0.776153611613101e3),
   (1, 3, -0.196512550881220e3),
   (1, 4, 0.289796526294175e2),
   (1, 5, -0.213290083518327e1),
   (2, 0, -0.123577859330390e5),
   (2, 1, 0.145503645404680e4),
   (2, 2, -0.756558385769359e3),
   (2, 3, 0.273479662323528e3),
   (2, 4, -0.555604063817218e2),
   (2, 5, 0.434420671917197e1),
   (3, 0, 0.736741204151612e3),
   (3, 1, -0.672507783145070e3),
   (3, 2, 0.499360390819152e3),
   (3, 3, -0.239545330654412e3),
   (3, 4, 0.488012518593872e2),
   (3, 5, -0.166307106208905e1),
   (4, 0, -0.148185936433658e3),
   (4, 1, 0.397968445406972e3),
   (4, 2, -0.301815380621876e3),
   (4, 3, 0.152196371733841e3),
   (4, 4, -0.263748377232802e2),
   (5, 0, 0.580259125842571e2),
   (5, 1, -0.194618310617595e3),
   (5, 2, 0.120520654902025e3),
   (5, 3, -0.552723052340152e2),
   (5, 4, 0.648190668077221e1),
   (6, 0, -0.189843846514172e2),
   (6, 1, 0.635113936641785e2),
   (6, 2, -0.222897317140459e2),
   (6, 3, 0.817060541818112e1),
   (7, 0, 0.305081646487967e1),
   (7, 1, -0.963108119393062e1)]

/-- The 64-entry `(i, j, k, coefficient)` table of `_saline` (lists `I`, `J`,
`K`, `G`, zipped in order). -/
def salineTable : List (Nat × Nat × Nat × ℚ) :=
  [(1, 0, 0, 0.581281456626732e4),
   (2, 0, 0, 0.141627648484197e4),
   (3, 0, 0, -0.243214662381794e4),
   (4, 0, 0, 0.202580115603697e4),
   (5, 0, 0, -0.109166841042967e4),
   (6, 0, 0, 0.374601237877840e3),
   (7, 0, 0, -0.485891069025409e2),
   (1, 1, 0, 0.851226734946706e3),
   (2, 1, 0, 0.168072408311545e3),
   (3, 1, 0, -0.493407510141682e3),
   (4, 1, 0, 0.543835333000098e3),
   (5, 1, 0, -0.196028306689776e3),
   (6, 1, 0, 0.367571622995805e2),
   (2, 2, 0, 0.880031352997204e3),
   (3, 2, 0, -0.430664675978042e2),
   (4, 2, 0, -0.685572509204491e2),
   (2, 3, 0, -0.225267649263401e3),
   (3, 3, 0, -0.100227370861875e2),
   (4, 3, 0, 0.493667694856254e2),
   (2, 4, 0, 0.914260447751259e2),
   (3, 4, 0, 0.875600661808945),
   (4, 4, 0, -0.171397577419788e2),
   (2, 5, 0, -0.216603240875311e2),
   (4, 5, 0, 0.249697009569508e1),
   (2, 6, 0, 0.213016970847183e1),
   (2, 0, 1, -0.331049154044839e4),
   (3, 0, 1, 0.199459603073901e3),
   (4, 0, 1, -0.547919133532887e2),
   (5, 0, 1, 0.360284195611086e2),
   (2, 1, 1, 0.729116529735046e3),
   (3, 1, 1, -0.175292041186547e3),
   (4, 1, 1, -0.226683558512829e2),
   (2, 2, 1, -0.860764303783977e3),
   (3, 2, 1, 0.383058066002476e3),
   (2, 3, 1, 0.694244814133268e3),
   (3, 3, 1, -0.460319931801257e3),
   (2, 4, 1, -0.297728741987187e3),
   (3, 4, 1, 0.234565187611355e3),
   (2, 0, 2, 0.384794152978599e3),
   (3, 0, 2, -0.522940909281335e2),
   (4, 0, 2, -0.408193978912261e1),
   (2, 1, 2, -0.343956902961561e3),
   (3, 1, 2, 0.831923927801819e2),
   (2, 2, 2, 0.337409530269367e3),
   (3, 2, 2, -0.541917262517112e2),
   (2, 3, 2, -0.204889641964903e3),
   (2, 4, 2, 0.747261411387560e2),
   (2, 0, 3, -0.965324320107458e2),
   (3, 0, 3, 0.680444942726459e2),
   (4, 0, 3, -0.301755111971161e2),
   (2, 1, 3, 0.124687671116248e3),
   (3, 1, 3, -0.294830643494290e2),
   (2, 2, 3, -0.178314556207638e3),
   (3, 2, 3, 0.256398487389914e2),
   (2, 3, 3, 0.113561697840594e3),
   (2, 4, 3, -0.364872919001588e2),
   (2, 0, 4, 0.158408172766824e2),
   (3, 0, 4, -0.341251932441282e1),
   (2, 1, 4, -0.316569643860730e2),
   (2, 2, 4, 0.442040358308000e2),
   (2, 3, 4, -0.111282734326413e2),
   (2, 0, 5, -0.262480156590992e1),
   (2, 1, 5, 0.704658803315449e1),
   (2, 2, 5, -0.792001547211682e1)]

/-- One iteration of the `_waterSupp` summation loop: the contribution of a
single `(j, k, gi)` entry to the six accumulators, with the conditionals of
the source applied independently. -/
def waterSuppStep (tau pi : ℝ) (a : Acc6) (e : Nat × Nat × ℚ) : Acc6 :=
  match e with
  | (j, k, gi) =>
    { g := a.g + (gi : ℝ) * tau ^ j * pi ^ k
      gt := if 1 ≤ j then a.gt + (gi : ℝ) * j * tau ^ (j - 1) * pi ^ k else a.gt
      gp := if 1 ≤ k then a.gp + k * (gi : ℝ) * tau ^ j * pi ^ (k - 1) else a.gp
      gtt := if 2 ≤ j then a.gtt + j * ((j : ℝ) - 1) * gi * tau ^ (j - 2) * pi ^ k else a.gtt
      gtp := if 1 ≤ j ∧ 1 ≤ k then a.gtp + j * (k : ℝ) * gi * tau ^ (j - 1) * pi ^ (k - 1) else a.gtp
      gpp := if 2 ≤ k then a.gpp + k * ((k : ℝ) - 1) * gi * tau ^ j * pi ^ (k - 2) else a.gpp }

/-- Raw accumulators of `_waterSupp` after the summation loop over the whole
table, with the reduced variables computed from `(T, P)` as in the source. -/
def waterSuppRaw (T P : ℝ) : Acc6 :=
  waterSuppTable.foldl (waterSuppStep ((T - 273.15) / 40) ((P - 0.101325) / 100)) Acc6.zero

/-- The `_waterSupp` classmethod: fast pure-water series of the
supplementary release, raw sums followed by the unit normalisation of its
final block, with `gs = gsp = 0`. -/
def waterSupp (T P : ℝ) : GibbsProps :=
  let r := waterSuppRaw T P
  { g := r.g * 1e-3
    gt := r.gt / 40 * 1e-3
    gp := r.gp / 100 * 1e-6
    gtt := r.gtt / 40 ^ 2 * 1e-3
    gtp := r.gtp / 40 / 100 * 1e-6
    gpp := r.gpp / 100 ^ 2 * 1e-6
    gs := 0
    gsp := 0 }

/-- The `_water` classmethod: delegate to the external pure-water equation
of state at `(T, P)` and transform its outputs into Gibbs derivatives. -/
def water (eos : ℝ → ℝ → WaterEOSProps) (T P : ℝ) : GibbsProps :=
  let wt := eos T P
  { g := wt.h - T * wt.s
    gt := -wt.s
    gp := 1 / wt.rho
    gtt := -wt.cp / T
    gtp := wt.betas * wt.cp / T
    gpp := -1e6 / (wt.rho * wt.w) ^ 2 - wt.betas ^ 2 * 1e3 * wt.cp / T
    gs := 0
    gsp := 0 }

/-- The salinity-ratio variable `X = (S/S_)**0.5` of `_saline`. -/
def salineX (S : ℝ) : ℝ := Real.sqrt (S / S_)

/-- One iteration of the `_saline` summation loop: the contribution of a
single `(i, j, k, gi)` entry to the eight accumulators.  The `i = 1` test
selects the logarithmic singular term for `g`, `gt` and `gs`; the remaining
accumulators use the plain-power formulas unconditionally, exactly as in the
source.  The exponent `i - 2` is taken over ℤ, matching the Python integer
exponent. -/
def salineStep (X tau pi : ℝ) (a : Acc8) (e : Nat × Nat × Nat × ℚ) : Acc8 :=
  match e with
  | (i, j, k, gi) =>
    { g := if i = 1 then a.g + (gi : ℝ) * X ^ 2 * Real.log X * tau ^ j * pi ^ k
           else a.g + (gi : ℝ) * X ^ i * tau ^ j * pi ^ k
      gs := if i = 1 then a.gs + (gi : ℝ) * (2 * Real.log X + 1) * tau ^ j * pi ^ k
            else a.gs + i * (gi : ℝ) * X ^ ((i : ℤ) - 2) * tau ^ j * pi ^ k
      gt := if 1 ≤ j then
              (if i = 1 then a.gt + (gi : ℝ) * X ^ 2 * Real.log X * j * tau ^ (j - 1) * pi ^ k
               else a.gt + (gi : ℝ) * X ^ i * j * tau ^ (j - 1) * pi ^ k)
            else a.gt
      gp := if 1 ≤ k then a.gp + k * (gi : ℝ) * X ^ i * tau ^ j * pi ^ (k - 1) else a.gp
      gsp := if 1 ≤ k then a.gsp + i * (k : ℝ) * gi * X ^ ((i : ℤ) - 2) * tau ^ j * pi ^ (k - 1)
             else a.gsp
      gtt := if 2 ≤ j then a.gtt + j * ((j : ℝ) - 1) * gi * X ^ i * tau ^ (j - 2) * pi ^ k
             else a.gtt
      gtp := if 1 ≤ j ∧ 1 ≤ k then a.gtp + j * (k : ℝ) * gi * X ^ i * tau ^ (j - 1) * pi ^ (k - 1)
             else a.gtp
      gpp := if 2 ≤ k then a.gpp + k * ((k : ℝ) - 1) * gi * X ^ i * tau ^ j * pi ^ (k - 2)
             else a.gpp }

/-- Raw accumulators of `_saline`: the summation loop runs over the table
only when `S ≠ 0`; otherwise the accumulators keep their initial zeros. -/
def salineRaw (T P S : ℝ) : Acc8 :=
  if S ≠ 0 then
    salineTable.foldl (salineStep (salineX S) ((T - 273.15) / 40) ((P - 0.101325) / 100)) Acc8.zero
  else Acc8.zero

/-- The `_saline` classmethod: saline correction term, raw sums followed by
the unit normalisation of its final block. -/
def saline (T P S : ℝ) : GibbsProps :=
  let r := salineRaw T P S
  { g := r.g * 1e-3
    gt := r.gt / 40 * 1e-3
    gp := r.gp / 100 * 1e-6
    gtt := r.gtt / 40 ^ 2 * 1e-3
    gtp := r.gtp / 40 / 100 * 1e-6
    gpp := r.gpp / 100 ^ 2 * 1e-6
    gs := r.gs / S_ / 2 * 1e-3
    gsp := r.gsp / S_ / 2 / 100 * 1e-6 }

/-- The pure-water strategy selection of `calculo`: the fast series when the
fast flag is set and `T ≤ 313.15`, the delegate otherwise. -/
def pureWater (eos : ℝ → ℝ → WaterEOSProps) (fast : Bool) (T P : ℝ) : GibbsProps :=
  if fast = true ∧ T ≤ 313.15 then waterSupp T P else water eos T P

/-- The combined derivative set of `calculo`: key-wise sum of the selected
pure-water set and the saline set. -/
def combined (eos : ℝ → ℝ → WaterEOSProps) (T P S : ℝ) (fast : Bool) : GibbsProps :=
  addGibbs (pureWater eos fast T P) (saline T P S)

/-- The attributes `calculo` assigns on the instance: the eight keys set by
the `__setattr__` loop over the combined dictionary, followed by the
explicit assignments, in source order.  An attribute exists on the computed
object exactly when its name occurs here. -/
def calculoSetAttrs : List String :=
  ["g", "gt", "gp", "gtt", "gtp", "gpp", "gs", "gsp",
   "T", "P", "rho", "v", "s", "cp", "h", "u", "a", "alfa", "betas", "kt",
   "ks", "w", "mu", "muw", "mus", "osm", "haline"]

/-- The state computed by `calculo`: one field per attribute it assigns.
The five salinity-dependent outputs are `Option ℝ`, `none` standing for the
`None` assigned on the `S = 0` branch. -/
structure Result where
  T : ℝ
  P : ℝ
  g : ℝ
  gt : ℝ
  gp : ℝ
  gtt : ℝ
  gtp : ℝ
  gpp : ℝ
  gs : ℝ
  gsp : ℝ
  rho : ℝ
  v : ℝ
  s : ℝ
  cp : ℝ
  h : ℝ
  u : ℝ
  a : ℝ
  alfa : ℝ
  betas : ℝ
  kt : ℝ
  ks : ℝ
  w : ℝ
  mu : Option ℝ
  muw : Option ℝ
  mus : Option ℝ
  osm : Option ℝ
  haline : Option ℝ

/-- The `calculo` method: select the pure-water strategy, evaluate both
terms, sum them key-wise, and derive every output property by the closed
formulas of the source.  The Python truthiness test `if S:` is the exact
test `S ≠ 0`. -/
def calculo (eos : ℝ → ℝ → WaterEOSProps) (T P S : ℝ) (fast : Bool) : Result :=
  let m := S / (1 - S) / Ms
  let ps := saline T P S
  let prop := combined eos T P S fast
  { T := T
    P := P
    g := prop.g
    gt := prop.gt
    gp := prop.gp
    gtt := prop.gtt
    gtp := prop.gtp
    gpp := prop.gpp
    gs := prop.gs
    gsp := prop.gsp
    rho := 1 / prop.gp
    v := prop.gp
    s := -prop.gt
    cp := -T * prop.gtt
    h := prop.g - T * prop.gt
    u := prop.g - T * prop.gt - P * 1000 * prop.gp
    a := prop.g - P * 1000 * prop.gp
    alfa := prop.gtp / prop.gp
    betas := -prop.gtp / prop.gtt
    kt := -prop.gpp / prop.gp
    ks := (prop.gtp ^ 2 - prop.gt * prop.gpp) / prop.gp / prop.gtt
    w := prop.gp * Real.sqrt (prop.gtt * 1000 / (prop.gtp ^ 2 - prop.gtt * 1000 * prop.gpp * 1e-6))
    mu := if S ≠ 0 then some prop.gs else none
    muw := if S ≠ 0 then some (prop.g - S * prop.gs) else none
    mus := if S ≠ 0 then some (prop.g + (1 - S) * prop.gs) else none
    osm := if S ≠ 0 then some (-(ps.g - S * prop.gs) / m / Rm / T) else none
    haline := if S ≠ 0 then some (-prop.gsp / prop.gp) else none }

/-- The keyword-argument record of the class, with the class defaults
`T = 0.0`, `P = 0.0`, `S = None`, `fast = False`. -/
structure Kwargs where
  T : ℝ
  P : ℝ
  S : Option ℝ
  fast : Bool

/-- The class-level defaults of `SeaWater.kwargs`. -/
def defaultKwargs : Kwargs := ⟨0, 0, none, false⟩

/-- A keyword-argument update: each field is supplied or absent, as in
`self.kwargs.update(kwargs)`. -/
structure KwargsUpdate where
  T : Option ℝ
  P : Option ℝ
  S : Option (Option ℝ)
  fast : Option Bool

/-- Apply an update to a keyword record: supplied fields replace the stored
ones, absent fields keep them. -/
def applyUpdate (k : Kwargs) (u : KwargsUpdate) : Kwargs :=
  ⟨u.T.getD k.T, u.P.getD k.P, u.S.getD k.S, u.fast.getD k.fast⟩

/-- The observable state of a `SeaWater` instance: stored keyword arguments,
`status`, `msg`, and the computed result when any. -/
structure SWState where
  kwargs : Kwargs
  status : Nat
  msg : String
  result : Option Result

/-- The state right after `__init__` ran with no computation: class defaults
`status = 0`, `msg = "Undefined"`, nothing computed. -/
def initState : SWState := ⟨defaultKwargs, 0, "Undefined", none⟩

/-- The `__call__` method: merge the update into the stored keyword
arguments, then run `calculo` only when `T` and `P` are truthy and `S` is
not `None`; in that case `status` becomes 1 and `msg` the empty string,
otherwise the state is unchanged apart from the stored arguments. -/
def call (eos : ℝ → ℝ → WaterEOSProps) (st : SWState) (u : KwargsUpdate) : SWState :=
  let k := applyUpdate st.kwargs u
  if k.T ≠ 0 ∧ k.P ≠ 0 ∧ k.S ≠ none then
    { kwargs := k, status := 1, msg := "",
      result := some (calculo eos k.T k.P (k.S.getD 0) k.fast) }
  else
    { kwargs := k, status := st.status, msg := st.msg, result := st.result }

end IAPWS08

namespace IAPWS08

/-- Constant external evaluator used to instantiate witnesses: density 1,
heat capacity -1, sound speed 1. -/
def eos0 : ℝ → ℝ → WaterEOSProps := fun _ _ => ⟨0, 0, 1, -1, 0, 1⟩

/-- C2: for every (T, P), the saline term at S = 0 returns the eight-key
derivative set with every key exactly zero, and the summation loop is not
executed: the raw accumulators are still their initial zeros, so no
logarithm of zero is ever taken. -/
theorem saline_at_zero_salinity :
    ∀ T P : ℝ, saline T P 0 = GibbsProps.zero ∧ salineRaw T P 0 = Acc8.zero := by
  intro T P
  have hraw : salineRaw T P 0 = Acc8.zero := by simp [salineRaw]
  refine ⟨?_, hraw⟩
  simp [saline, hraw, Acc8.zero, GibbsProps.zero]

/-- C3: the combined derivative set used by calculo is the exact key-wise
sum of the pure-water set and the saline set, for all eight keys. -/
theorem calculo_combines_keywise :
    ∀ (eos : ℝ → ℝ → WaterEOSProps) (T P S : ℝ) (fast : Bool),
    (calculo eos T P S fast).g = (pureWater eos fast T P).g + (saline T P S).g ∧
    (calculo eos T P S fast).gt = (pureWater eos fast T P).gt + (saline T P S).gt ∧
    (calculo eos T P S fast).gp = (pureWater eos fast T P).gp + (saline T P S).gp ∧
    (calculo eos T P S fast).gtt = (pureWater eos fast T P).gtt + (saline T P S).gtt ∧
    (calculo eos T P S fast).gtp = (pureWater eos fast T P).gtp + (saline T P S).gtp ∧
    (calculo eos T P S fast).gpp = (pureWater eos fast T P).gpp + (saline T P S).gpp ∧
    (calculo eos T P S fast).gs = (pureWater eos fast T P).gs + (saline T P S).gs ∧
    (calculo eos T P S fast).gsp = (pureWater eos fast T P).gsp + (saline T P S).gsp := by
  intro eos T P S fast
  exact ⟨rfl, rfl, rfl, rfl, rfl, rfl, rfl, rfl⟩

/-- C5: the fast-series strategy is used exactly when the fast flag is set
and T ≤ 313.15; in every other case the delegate strategy is used, with no
error (the selector is a total function). -/
theorem pure_water_strategy_selection :
    ∀ (eos : ℝ → ℝ → WaterEOSProps) (fast : Bool) (T P : ℝ),
    (fast = true ∧ T ≤ 313.15 → pureWater eos fast T P = waterSupp T P) ∧
    (¬(fast = true ∧ T ≤ 313.15) → pureWater eos fast T P = water eos T P) := by
  intro eos fast T P
  constructor
  · intro h
    unfold pureWater
    rw [if_pos h]
  · intro h
    unfold pureWater
    rw [if_neg h]

/-- Witness for C5: fast mode at 300 K uses the fast series; fast mode at
400 K (above the threshold) falls back to the delegate. -/
theorem pure_water_strategy_selection_witness :
    pureWater eos0 true 300 1 = waterSupp 300 1 ∧
    pureWater eos0 true 400 1 = water eos0 400 1 := by
  constructor
  · exact (pure_water_strategy_selection eos0 true 300 1).1 ⟨rfl, by norm_num⟩
  · refine (pure_water_strategy_selection eos0 true 400 1).2 ?_
    rintro ⟨-, h⟩
    norm_num at h

/-- C6: in both series evaluators, the normalisation applied after the raw
summation is exactly the stated one: value and the tau derivatives scale by
1e-3, the pi derivatives by 1e-6, with tau-order divisors 40 and 40^2,
pi-order divisors 100 and 100^2, and in the saline evaluator gs and gsp are
additionally divided by 2·S_ (gsp also by 100). -/
theorem series_normalisation :
    ∀ T P S : ℝ,
    (saline T P S).g = (salineRaw T P S).g * 1e-3 ∧
    (saline T P S).gt = (salineRaw T P S).gt / 40 * 1e-3 ∧
    (saline T P S).gp = (salineRaw T P S).gp / 100 * 1e-6 ∧
    (saline T P S).gtt = (salineRaw T P S).gtt / 40 ^ 2 * 1e-3 ∧
    (saline T P S).gtp = (salineRaw T P S).gtp / 40 / 100 * 1e-6 ∧
    (saline T P S).gpp = (salineRaw T P S).gpp / 100 ^ 2 * 1e-6 ∧
    (saline T P S).gs = (salineRaw T P S).gs / (2 * S_) * 1e-3 ∧
    (saline T P S).gsp = (salineRaw T P S).gsp / (2 * S_) / 100 * 1e-6 ∧
    (waterSupp T P).g = (waterSuppRaw T P).g * 1e-3 ∧
    (waterSupp T P).gt = (waterSuppRaw T P).gt / 40 * 1e-3 ∧
    (waterSupp T P).gp = (waterSuppRaw T P).gp / 100 * 1e-6 ∧
    (waterSupp T P).gtt = (waterSuppRaw T P).gtt / 40 ^ 2 * 1e-3 ∧
    (waterSupp T P).gtp = (waterSuppRaw T P).gtp / 40 / 100 * 1e-6 ∧
    (waterSupp T P).gpp = (waterSuppRaw T P).gpp / 100 ^ 2 * 1e-6 := by
  intro T P S
  refine ⟨rfl, rfl, rfl, rfl, rfl, rfl, ?_, ?_, rfl, rfl, rfl, rfl, rfl, rfl⟩
  · show (salineRaw T P S).gs / S_ / 2 * 1e-3 = (salineRaw T P S).gs / (2 * S_) * 1e-3
    ring
  · show (salineRaw T P S).gsp / S_ / 2 / 100 * 1e-6 =
      (salineRaw T P S).gsp / (2 * S_) / 100 * 1e-6
    ring

/-- C7: for every strictly positive salinity the salinity-ratio variable
X = sqrt(S/S_) is strictly positive (hence nonzero), so the only logarithm
the saline loop takes has a strictly positive argument and the evaluation is
total, no matter how small S is. -/
theorem salineX_pos (S : ℝ) (h : 0 < S) : 0 < salineX S ∧ salineX S ≠ 0 := by
  have hpos : 0 < salineX S := by
    unfold salineX
    refine Real.sqrt_pos.mpr (div_pos h ?_)
    unfold S_ Sn
    norm_num
  exact ⟨hpos, ne_of_gt hpos⟩

/-- Witness for C7 at S = 1. -/
theorem salineX_pos_witness : 0 < salineX 1 ∧ salineX 1 ≠ 0 :=
  salineX_pos 1 one_pos

/-- Counterexample for C9: calculo never assigns a salinity attribute; the
name S is not among the attributes it sets, so the computed state does not
echo the input salinity. -/
theorem calculo_sets_no_salinity_attr : ¬ ("S" ∈ calculoSetAttrs) := by decide

/-- C9 (amended): the computed state echoes back temperature and pressure
(its T field equals the input T and its P field equals the input P); the
salinity is not stored as a field of the result. -/
theorem calculo_echoes_T_P :
    ∀ (eos : ℝ → ℝ → WaterEOSProps) (T P S : ℝ) (fast : Bool),
    (calculo eos T P S fast).T = T ∧ (calculo eos T P S fast).P = P := by
  intro eos T P S fast
  exact ⟨rfl, rfl⟩

end IAPWS08

namespace IAPWS08

/-- C1: for every evaluated input, with pr the combined derivative set and
its denominator derivatives nonzero, the composed outputs of calculo satisfy
exactly the closed chain-rule formulas of the claim. -/
theorem calculo_output_formulas (eos : ℝ → ℝ → WaterEOSProps) (T P S : ℝ) (fast : Bool)
    (pr : GibbsProps) (hpr : pr = combined eos T P S fast)
    (hgp : pr.gp ≠ 0) (hgtt : pr.gtt ≠ 0) :
    (calculo eos T P S fast).rho = 1 / pr.gp ∧
    (calculo eos T P S fast).v = pr.gp ∧
    (calculo eos T P S fast).s = -pr.gt ∧
    (calculo eos T P S fast).cp = -T * pr.gtt ∧
    (calculo eos T P S fast).h = pr.g - T * pr.gt ∧
    (calculo eos T P S fast).u = pr.g - T * pr.gt - 1000 * P * pr.gp ∧
    (calculo eos T P S fast).a = pr.g - 1000 * P * pr.gp ∧
    (calculo eos T P S fast).alfa = pr.gtp / pr.gp ∧
    (calculo eos T P S fast).betas = -pr.gtp / pr.gtt ∧
    (calculo eos T P S fast).kt = -pr.gpp / pr.gp ∧
    (calculo eos T P S fast).ks = (pr.gtp ^ 2 - pr.gt * pr.gpp) / (pr.gp * pr.gtt) ∧
    (calculo eos T P S fast).w =
      pr.gp * Real.sqrt (1000 * pr.gtt / (pr.gtp ^ 2 - 1000 * pr.gtt * pr.gpp * 1e-6)) := by
  subst hpr
  unfold calculo
  dsimp only
  refine ⟨rfl, rfl, rfl, rfl, rfl, by ring, by ring, rfl, rfl, rfl, div_div _ _ _, ?_⟩
  have harg : (combined eos T P S fast).gtt * 1000 /
      ((combined eos T P S fast).gtp ^ 2 -
        (combined eos T P S fast).gtt * 1000 * (combined eos T P S fast).gpp * 1e-6) =
      1000 * (combined eos T P S fast).gtt /
      ((combined eos T P S fast).gtp ^ 2 -
        1000 * (combined eos T P S fast).gtt * (combined eos T P S fast).gpp * 1e-6) := by
    ring_nf
  rw [harg]

/-- Witness for C1 at the delegate strategy, unit temperature and pressure
and zero salinity, where the combined gp and gtt are both 1. -/
theorem calculo_output_formulas_witness :
    (combined eos0 1 1 0 false).gp ≠ 0 ∧
    (calculo eos0 1 1 0 false).rho = 1 / (combined eos0 1 1 0 false).gp := by
  have hgp : (combined eos0 1 1 0 false).gp ≠ 0 := by
    norm_num [combined, addGibbs, pureWater, water, saline, salineRaw, Acc8.zero, eos0]
  have hgtt : (combined eos0 1 1 0 false).gtt ≠ 0 := by
    norm_num [combined, addGibbs, pureWater, water, saline, salineRaw, Acc8.zero, eos0]
  exact ⟨hgp, (calculo_output_formulas eos0 1 1 0 false _ rfl hgp hgtt).1⟩

/-- C4: when S is nonzero the five salinity-dependent outputs are given by
the claimed formulas (the osmotic coefficient using the saline-only Gibbs
value, the molality S/(1-S)/Ms and the gas constant Rm); when S is zero all
five outputs are absent. -/
theorem calculo_salinity_outputs (eos : ℝ → ℝ → WaterEOSProps) (T P S : ℝ) (fast : Bool) :
    (S ≠ 0 →
      (calculo eos T P S fast).mu = some (combined eos T P S fast).gs ∧
      (calculo eos T P S fast).muw =
        some ((combined eos T P S fast).g - S * (combined eos T P S fast).gs) ∧
      (calculo eos T P S fast).mus =
        some ((combined eos T P S fast).g + (1 - S) * (combined eos T P S fast).gs) ∧
      (calculo eos T P S fast).osm =
        some (-((saline T P S).g - S * (combined eos T P S fast).gs) /
          (S / (1 - S) / Ms * Rm * T)) ∧
      (calculo eos T P S fast).haline =
        some (-((combined eos T P S fast).gsp / (combined eos T P S fast).gp))) ∧
    (S = 0 →
      (calculo eos T P S fast).mu = none ∧
      (calculo eos T P S fast).muw = none ∧
      (calculo eos T P S fast).mus = none ∧
      (calculo eos T P S fast).osm = none ∧
      (calculo eos T P S fast).haline = none) := by
  constructor
  · intro hS
    unfold calculo
    dsimp only
    rw [if_pos hS, if_pos hS, if_pos hS, if_pos hS, if_pos hS]
    refine ⟨rfl, rfl, rfl, ?_, ?_⟩
    · congr 1
      rw [div_div, div_div, mul_assoc]
    · congr 1
      exact neg_div _ _
  · intro hS
    unfold calculo
    dsimp only
    rw [if_neg (not_not_intro hS), if_neg (not_not_intro hS), if_neg (not_not_intro hS),
      if_neg (not_not_intro hS), if_neg (not_not_intro hS)]
    exact ⟨rfl, rfl, rfl, rfl, rfl⟩

/-- Witness for C4: at S = 1/2 the relative chemical potential is present
and equal to the combined gs; at S = 0 it is absent. -/
theorem calculo_salinity_outputs_witness :
    (calculo eos0 1 1 (1/2) false).mu = some (combined eos0 1 1 (1/2) false).gs ∧
    (calculo eos0 1 1 0 false).mu = none := by
  constructor
  · exact ((calculo_salinity_outputs eos0 1 1 (1/2) false).1 (by norm_num)).1
  · exact ((calculo_salinity_outputs eos0 1 1 0 false).2 rfl).1

/-- C10: every saline table entry with leading exponent 1 has tau exponent
at most 1 and pi exponent 0; consequently, on such an entry the saline loop
step leaves the gp, gsp, gtt, gtp and gpp accumulators unchanged, so none of
the plain-power branches ever touches the logarithmic term. -/
theorem saline_log_entries :
    (∀ e ∈ salineTable, e.1 = 1 → e.2.1 ≤ 1 ∧ e.2.2.1 = 0) ∧
    (∀ (X tau pi : ℝ) (a : Acc8) (e : Nat × Nat × Nat × ℚ), e ∈ salineTable → e.1 = 1 →
      (salineStep X tau pi a e).gp = a.gp ∧
      (salineStep X tau pi a e).gsp = a.gsp ∧
      (salineStep X tau pi a e).gtt = a.gtt ∧
      (salineStep X tau pi a e).gtp = a.gtp ∧
      (salineStep X tau pi a e).gpp = a.gpp) := by
  have htab : ∀ e ∈ salineTable, e.1 = 1 → e.2.1 ≤ 1 ∧ e.2.2.1 = 0 := by decide
  refine ⟨htab, ?_⟩
  intro X tau pi a e he h1
  obtain ⟨hj, hk⟩ := htab e he h1
  obtain ⟨i, j, k, gi⟩ := e
  dsimp only at hj hk
  unfold salineStep
  dsimp only
  refine ⟨?_, ?_, ?_, ?_, ?_⟩
  · rw [if_neg (by omega)]
  · rw [if_neg (by omega)]
  · rw [if_neg (by omega)]
  · rw [if_neg (by rintro ⟨-, h⟩; omega)]
  · rw [if_neg (by omega)]

/-- Witness for C10 at the first table entry, the logarithmic entry with
tau exponent 0 and pi exponent 0. -/
theorem saline_log_entries_witness :
    ((1, 0, 0, (0.581281456626732e4 : ℚ)).2.1 ≤ 1 ∧
      (1, 0, 0, (0.581281456626732e4 : ℚ)).2.2.1 = 0) ∧
    (salineStep 1 1 1 Acc8.zero (1, 0, 0, (0.581281456626732e4 : ℚ))).gp = Acc8.zero.gp := by
  have hmem : ((1, 0, 0, (0.581281456626732e4 : ℚ)) : Nat × Nat × Nat × ℚ) ∈ salineTable := by
    unfold salineTable
    exact List.mem_cons_self _ _
  exact ⟨saline_log_entries.1 _ hmem rfl,
    (saline_log_entries.2 1 1 1 Acc8.zero _ hmem rfl).1⟩

/-- C8: starting from the freshly constructed state, the computation runs
(status becomes 1) only when T and P are truthy and S is supplied; and if
any of the three updates is missing the state stays unevaluated: status 0,
msg "Undefined", no result computed. -/
theorem call_requires_complete_input (eos : ℝ → ℝ → WaterEOSProps) (u : KwargsUpdate) :
    ((call eos initState u).status = 1 →
      (applyUpdate defaultKwargs u).T ≠ 0 ∧ (applyUpdate defaultKwargs u).P ≠ 0 ∧
      (applyUpdate defaultKwargs u).S ≠ none) ∧
    (u.T = none ∨ u.P = none ∨ u.S = none →
      (call eos initState u).status = 0 ∧ (call eos initState u).msg = "Undefined" ∧
      (call eos initState u).result = none) := by
  constructor
  · intro h
    by_cases hc : (applyUpdate defaultKwargs u).T ≠ 0 ∧ (applyUpdate defaultKwargs u).P ≠ 0 ∧
        (applyUpdate defaultKwargs u).S ≠ none
    · exact hc
    · exfalso
      unfold call at h
      simp only [initState] at h
      rw [if_neg hc] at h
      exact absurd h (by simp [initState])
  · intro h
    have hc : ¬((applyUpdate defaultKwargs u).T ≠ 0 ∧ (applyUpdate defaultKwargs u).P ≠ 0 ∧
        (applyUpdate defaultKwargs u).S ≠ none) := by
      rcases h with h | h | h
      · rintro ⟨h1, -, -⟩
        exact h1 (by simp [applyUpdate, h, defaultKwargs])
      · rintro ⟨-, h2, -⟩
        exact h2 (by simp [applyUpdate, h, defaultKwargs])
      · rintro ⟨-, -, h3⟩
        exact h3 (by simp [applyUpdate, h, defaultKwargs])
    unfold call
    simp only [initState]
    rw [if_neg hc]
    exact ⟨rfl, rfl, rfl⟩

/-- Witness for C8: supplying all three inputs makes the guard pass, so the
first part applies with status 1; omitting T keeps status 0. -/
theorem call_requires_complete_input_witness :
    (applyUpdate defaultKwargs ⟨some 1, some 1, some (some 0), some false⟩).T ≠ 0 ∧
    (call eos0 initState ⟨none, some 1, some (some 0), none⟩).status = 0 := by
  have hstat : (call eos0 initState ⟨some 1, some 1, some (some 0), some false⟩).status = 1 := by
    have hcond : (applyUpdate defaultKwargs
        ⟨some 1, some 1, some (some 0), some false⟩).T ≠ 0 ∧
        (applyUpdate defaultKwargs ⟨some 1, some 1, some (some 0), some false⟩).P ≠ 0 ∧
        (applyUpdate defaultKwargs ⟨some 1, some 1, some (some 0), some false⟩).S ≠ none := by
      refine ⟨?_, ?_, ?_⟩ <;> simp [applyUpdate, defaultKwargs]
    unfold call
    simp only [initState]
    rw [if_pos hcond]
  refine ⟨(call_requires_complete_input eos0 ⟨some 1, some 1, some (some 0), some false⟩).1
    hstat |>.1, ?_⟩
  exact ((call_requires_complete_input eos0 ⟨none, some 1, some (some 0), none⟩).2
    (Or.inl rfl)).1

end IAPWS08
